import Mathlib

/-!
Verification of the libdb-rs safe-handle layer over the Berkeley DB engine.

The Rust sources under `src/` are shallowly embedded here:
* `error.rs` gives the status-code constants and the `Error` wrapper;
* `dbt.rs` gives the `DBT` buffer sum type and its drop behaviour;
* `db.rs` gives the builders, `Db::get`/`Db::put`, `Cursor::next`, and the
  `Transaction` resolution/drop logic.

The engine behind the FFI boundary is external to the repository; each
wrapper function is embedded as a function of the engine's reply (the status
code plus any output bytes), exactly mirroring the `match` at the single
call site in the source.  Where a claim needs engine semantics (the keyed
store, cursor streams, Arc reference counting), a model is introduced whose
doc comment starts with `Modelled from the spec:` and cites the spec section.

Native pointers are modelled as `Nat` identifiers; byte strings as
`List Nat`.
-/

namespace LibDB

/-- Status constant from src/error.rs line 39: user memory too small for return. -/
def DB_BUFFER_SMALL : Int := -30999

/-- Status constant from src/error.rs line 47: the key/data pair already exists. -/
def DB_KEYEXIST : Int := -30995

/-- Status constant from src/error.rs line 49: deadlock. -/
def DB_LOCK_DEADLOCK : Int := -30994

/-- Status constant from src/error.rs line 51: lock unavailable. -/
def DB_LOCK_NOTGRANTED : Int := -30993

/-- Status constant from src/error.rs line 61: key/data pair not found (EOF). -/
def DB_NOTFOUND : Int := -30988

/-- Status constant from src/error.rs line 89: panic return, run recovery. -/
def DB_RUNRECOVERY : Int := -30974

/-- Error from src/error.rs lines 8-11: wraps the raw signed engine status
code.  No message text is stored; only the code. -/
structure Error where
  errno : Int
deriving DecidableEq, Repr

/-- Error::new from src/error.rs lines 15-17. -/
def Error.new (errno : Int) : Error := ⟨errno⟩

/-- Error::as_string from src/error.rs lines 25-29: the human-readable
message is produced on demand by calling the engine's db_strerror on the
stored code.  The strerror table is a parameter because the engine is
external; laziness is visible in that `Error.new` never consults it and
`Error` has no message field. -/
def Error.as_string (strerror : Int → String) (e : Error) : String :=
  strerror e.errno

/-- DBT from src/dbt.rs lines 9-12: `Owned` borrows a caller byte slice
(the borrowed variant); `Ptr` holds an engine-allocated block (the
engine-owned variant, freed exactly once on drop).  The engine-allocated
block's contents stand in for the native data pointer plus size. -/
inductive DBT where
  | Owned (s : List Nat)
  | Ptr (data : List Nat)
deriving DecidableEq, Repr

/-- DBT::as_slice from src/dbt.rs lines 23-28: the byte view of either
variant. -/
def DBT.as_slice : DBT → List Nat
  | .Owned s => s
  | .Ptr data => data

/-- Db::get from src/db.rs lines 326-341: the status match at the single
engine-call site.  The engine's reply is the status code together with the
bytes of the DB_DBT_MALLOC output block (meaningful when the status is 0);
status 0 wraps the engine-allocated block, DB_NOTFOUND is intercepted to
the non-error absent case, and everything else maps to Err. -/
def Db.get (st : Int) (data : List Nat) : Except Error (Option DBT) :=
  if st = 0 then .ok (some (DBT.Ptr data))
  else if st = DB_NOTFOUND then .ok none
  else .error (Error.new st)

/-- Db::put from src/db.rs lines 359-374: the status match at the engine
put call site.  Status 0 is Ok; every other status, with no exception,
maps to Err. -/
def Db.put (st : Int) : Except Error Unit :=
  if st = 0 then .ok () else .error (Error.new st)

/-- Cursor::next from src/db.rs lines 433-445: the status match at the
cursor c_get(DB_NEXT) call site.  Both output blocks are engine-allocated
(DB_DBT_MALLOC).  Status 0 yields the pair; every other status — there is
no DB_NOTFOUND arm here, unlike Db::get — maps to Err. -/
def Cursor.next (st : Int) (key data : List Nat) :
    Except Error (Option DBT × Option DBT) :=
  if st = 0 then .ok (some (DBT.Ptr key), some (DBT.Ptr data))
  else .error (Error.new st)

/-- C1: Db::get maps engine status 0 to Ok(Some buffer) holding the
engine-returned value, the key-not-found status DB_NOTFOUND (-30988) to
Ok(None) with no Error surfaced, and every other non-zero status e to
Err wrapping exactly that status. -/
theorem C1_get_status_mapping (st : Int) (data : List Nat) :
    (st = 0 → Db.get st data = .ok (some (DBT.Ptr data)))
    ∧ Db.get DB_NOTFOUND data = .ok none
    ∧ (st ≠ 0 → st ≠ DB_NOTFOUND → Db.get st data = .error (Error.new st)) := by
  refine ⟨fun h => by simp [Db.get, h], ?_, fun h1 h2 => by simp [Db.get, h1, h2]⟩
  simp [Db.get, DB_NOTFOUND]

/-- C1 witness: the three arms of the status mapping at the concrete
statuses 0, -30988 and 5 with data block [7]. -/
theorem C1_get_status_mapping_witness :
    Db.get 0 [7] = .ok (some (DBT.Ptr [7]))
    ∧ Db.get DB_NOTFOUND [7] = .ok none
    ∧ Db.get 5 [7] = .error (Error.new 5) :=
  ⟨(C1_get_status_mapping 0 [7]).1 rfl, (C1_get_status_mapping 0 [7]).2.1,
   (C1_get_status_mapping 5 [7]).2.2 (by norm_num) (by norm_num [DB_NOTFOUND])⟩

/-- C10: Db::put maps every non-zero engine status — including DB_NOTFOUND
and DB_KEYEXIST — to Err wrapping exactly that status; put returns a
non-error outcome only for status 0. -/
theorem C10_put_every_nonzero_status_is_err (st : Int) :
    (st ≠ 0 → Db.put st = .error (Error.new st))
    ∧ Db.put DB_NOTFOUND = .error (Error.new DB_NOTFOUND)
    ∧ Db.put DB_KEYEXIST = .error (Error.new DB_KEYEXIST)
    ∧ (Db.put st = .ok () ↔ st = 0) := by
  refine ⟨fun h => by simp [Db.put, h], by norm_num [Db.put, DB_NOTFOUND],
    by norm_num [Db.put, DB_KEYEXIST], ?_⟩
  constructor
  · intro h
    by_contra hne
    simp [Db.put, hne] at h
  · intro h
    simp [Db.put, h]

/-- C10 witness: put at the concrete statuses DB_KEYEXIST (an Err, never a
non-error outcome) and 0 (the only Ok case). -/
theorem C10_put_every_nonzero_status_is_err_witness :
    Db.put DB_KEYEXIST = .error (Error.new DB_KEYEXIST)
    ∧ (Db.put 0 = .ok () ↔ (0 : Int) = 0) :=
  ⟨(C10_put_every_nonzero_status_is_err DB_KEYEXIST).2.2.1,
   (C10_put_every_nonzero_status_is_err 0).2.2.2⟩

/-- C2 counterexample: when the engine reports end-of-data (DB_NOTFOUND),
Cursor::next returns an Err wrapping DB_NOTFOUND — not a non-error
"no more records" outcome as the claim states. -/
theorem C2_next_eof_is_err_counterexample :
    Cursor.next DB_NOTFOUND [] [] = .error (Error.new DB_NOTFOUND) := by
  norm_num [Cursor.next, DB_NOTFOUND]

/-- Modelled from the spec: the engine cursor operation cursor_next (§6,
§4.4) over the remaining sequence of key/value records.  On a non-empty
cursor it reports status 0 with the engine-allocated key and value blocks;
on an exhausted cursor it reports DB_NOTFOUND (end-of-data), and the
cursor stays exhausted — a terminal, repeatable engine state. -/
def cursorEngineNext :
    List (List Nat × List Nat) →
      (Int × List Nat × List Nat) × List (List Nat × List Nat)
  | [] => ((DB_NOTFOUND, [], []), [])
  | (k, v) :: rest => ((0, k, v), rest)

/-- One call to Cursor::next against the engine cursor model: the wrapper's
status match applied to the engine's reply, with the advanced cursor
state. -/
def Cursor.nextOn (s : List (List Nat × List Nat)) :
    Except Error (Option DBT × Option DBT) × List (List Nat × List Nat) :=
  let r := cursorEngineNext s
  (Cursor.next r.1.1 r.1.2.1 r.1.2.2, r.2)

/-- Outcomes of n successive Cursor::next calls starting from engine
cursor state s. -/
def Cursor.runNexts (s : List (List Nat × List Nat)) :
    Nat → List (Except Error (Option DBT × Option DBT))
  | 0 => []
  | n + 1 =>
    let r := Cursor.nextOn s
    r.1 :: Cursor.runNexts r.2 n

/-- On an exhausted cursor every call yields the same Err(DB_NOTFOUND). -/
theorem runNexts_nil (n : Nat) :
    Cursor.runNexts [] n
      = List.replicate n (.error (Error.new DB_NOTFOUND)) := by
  induction n with
  | zero => rfl
  | succ n ih =>
    simp only [Cursor.runNexts, Cursor.nextOn, cursorEngineNext,
      List.replicate_succ, ih]
    norm_num [Cursor.next, DB_NOTFOUND]

/-- C2 amended: once the engine reports end-of-data, that call and every
subsequent call to Cursor::next returns Err wrapping DB_NOTFOUND (-30988).
Exhaustion is terminal and repeatable — each further call yields the same
outcome, never a success and never a panic — but it is surfaced through
the Error channel, not as a non-error "no more records" outcome. -/
theorem C2_next_after_exhaustion_same_err (entries : List (List Nat × List Nat))
    (n : Nat) :
    Cursor.runNexts entries (entries.length + n)
      = entries.map (fun kv => .ok (some (DBT.Ptr kv.1), some (DBT.Ptr kv.2)))
        ++ List.replicate n (.error (Error.new DB_NOTFOUND)) := by
  induction entries with
  | nil => simpa using runNexts_nil n
  | cons kv rest ih =>
    simp only [List.length_cons, List.map_cons, List.cons_append]
    have : rest.length + 1 + n = (rest.length + n) + 1 := by omega
    rw [this]
    simp only [Cursor.runNexts, Cursor.nextOn, cursorEngineNext]
    simp [Cursor.next, ih]

/-- Engine transaction-resolution calls issued by the wrapper, identified
by the native transaction handle. -/
inductive TxnCall where
  | commitCall (ptr : Nat) (mode : Nat)
  | abortCall (ptr : Nat)
deriving DecidableEq, Repr

/-- Transaction from src/db.rs lines 458-460: the handle wraps the native
pointer; `none` models the null pointer that commit/abort leave behind. -/
structure Transaction where
  txn_ptr : Option Nat
deriving DecidableEq, Repr

/-- Transaction::commit from src/db.rs lines 474-483, called on a live
handle p (commit takes self by value, so the pointer is non-null at every
call and no call can follow): one engine commit call with the given sync
mode, the engine status mapped 0 to Ok and anything else to Err, and the
pointer nulled regardless of the status. -/
def Transaction.commit (p : Nat) (mode : Nat) (st : Int) :
    Except Error Unit × Transaction × List TxnCall :=
  ((if st = 0 then .ok () else .error (Error.new st)),
   ⟨none⟩, [.commitCall p mode])

/-- Transaction::abort from src/db.rs lines 488-497: one engine abort call
on the live handle, the status mapped to the result, the pointer nulled. -/
def Transaction.abort (p : Nat) (st : Int) :
    Except Error Unit × Transaction × List TxnCall :=
  ((if st = 0 then .ok () else .error (Error.new st)),
   ⟨none⟩, [.abortCall p])

/-- Drop for Transaction from src/db.rs lines 500-509: a still-live handle
issues the engine abort with no result channel at all — the engine status
is discarded (swallowed) by construction; a resolved (nulled) handle
issues nothing. -/
def Transaction.dropCalls : Transaction → List TxnCall
  | ⟨some p⟩ => [.abortCall p]
  | ⟨none⟩ => []

/-- The three lifetimes Rust's move semantics allow for a Transaction:
resolved by commit (consuming the handle), resolved by abort (consuming
the handle), or dropped while unresolved.  No fourth shape exists: commit
and abort take self by value, so a second resolution cannot be written. -/
inductive TxnLifetime where
  | viaCommit (mode : Nat) (engineStatus : Int)
  | viaAbort (engineStatus : Int)
  | droppedUnresolved
deriving DecidableEq, Repr

/-- Engine calls over a Transaction's whole lifetime on native handle p:
the resolution (when any) on the live handle, followed by the drop of the
handle commit/abort left behind (nulled on the resolved paths). -/
def txnLifetimeCalls (p : Nat) : TxnLifetime → List TxnCall
  | .viaCommit mode st =>
    (Transaction.commit p mode st).2.2
      ++ (Transaction.commit p mode st).2.1.dropCalls
  | .viaAbort st =>
    (Transaction.abort p st).2.2 ++ (Transaction.abort p st).2.1.dropCalls
  | .droppedUnresolved => Transaction.dropCalls ⟨some p⟩

/-- C3: exactly one engine resolution call is issued over a Transaction's
lifetime.  Commit and abort null the handle (so the subsequent drop issues
nothing and no second resolution can ever reach the engine), and a
Transaction dropped unresolved issues exactly the automatic engine abort,
whose status has no result channel (the error is swallowed). -/
theorem C3_txn_exactly_one_resolution (p mode : Nat) (st : Int) :
    (Transaction.commit p mode st).2.1.txn_ptr = none
    ∧ (Transaction.abort p st).2.1.txn_ptr = none
    ∧ txnLifetimeCalls p (.viaCommit mode st) = [.commitCall p mode]
    ∧ txnLifetimeCalls p (.viaAbort st) = [.abortCall p]
    ∧ txnLifetimeCalls p .droppedUnresolved = [.abortCall p]
    ∧ Transaction.dropCalls ⟨none⟩ = [] :=
  ⟨rfl, rfl, rfl, rfl, rfl, rfl⟩

/-- Native environment-handle calls issued by the wrapper. -/
inductive EnvCall where
  | openCall (ptr : Nat) (flags : Nat) (mode : Int)
  | closeCall (ptr : Nat)
deriving DecidableEq, Repr

/-- Env from src/db.rs lines 110-112: the opened environment handle. -/
structure Env where
  env_ptr : Option Nat
deriving DecidableEq, Repr

/-- Drop for Env from src/db.rs lines 128-136: closes the native handle
when non-null. -/
def Env.dropCalls : Env → List EnvCall
  | ⟨some p⟩ => [.closeCall p]
  | ⟨none⟩ => []

/-- EnvironmentBuilder from src/db.rs lines 20-25: new() (lines 32-46)
allocates the native handle, panicking the process on allocation failure,
so env_ptr is non-null from construction until open() transfers it. -/
structure EnvironmentBuilder where
  env_ptr : Option Nat
  home : Option (List Nat)
  flags : Nat
  mode : Int
deriving DecidableEq, Repr

/-- EnvironmentBuilder::open from src/db.rs lines 67-86: issues the engine
open on the held handle; on status 0 the handle moves into the returned
Env and the builder's pointer is nulled before the builder is dropped; on
any other status the builder is returned unchanged — still holding the
handle — with the mapped Error.  The null branch cannot arise in the Rust
API (new() always allocates and open() consumes the builder); it is
totalized with no calls. -/
def EnvironmentBuilder.open (b : EnvironmentBuilder) (st : Int) :
    Except Error Env × EnvironmentBuilder × List EnvCall :=
  match b.env_ptr with
  | some p =>
    if st = 0 then
      (.ok ⟨some p⟩, { b with env_ptr := none }, [.openCall p b.flags b.mode])
    else
      (.error (Error.new st), b, [.openCall p b.flags b.mode])
  | none => (.error (Error.new st), b, [])

/-- Drop for EnvironmentBuilder from src/db.rs lines 89-97: closes the
native handle when the builder still holds it. -/
def EnvironmentBuilder.dropCalls : EnvironmentBuilder → List EnvCall
  | ⟨some p, _, _, _⟩ => [.closeCall p]
  | ⟨none, _, _, _⟩ => []

/-- Native-handle calls over an EnvironmentBuilder's whole lifetime:
either the builder is abandoned (dropped without open), or open runs
against some engine status, the consumed builder is dropped at the end of
open, and on success the returned Env is itself eventually dropped. -/
def envBuilderLifetimeCalls (b : EnvironmentBuilder) : Option Int → List EnvCall
  | none => b.dropCalls
  | some st =>
    let r := b.open st
    r.2.2 ++ r.2.1.dropCalls
      ++ (match r.1 with | .ok env => env.dropCalls | .error _ => [])

/-- C5: on every exit path of EnvironmentBuilder — abandoned without
open(), failed open(), or successful open() followed by the Environment's
own eventual drop — the native handle allocated at construction is closed
exactly once; moreover a successful open nulls the builder's pointer
(ownership transferred) and returns the Env holding the handle. -/
theorem C5_env_builder_releases_once (p : Nat) (home : Option (List Nat))
    (flags : Nat) (mode : Int) (path : Option Int) :
    (envBuilderLifetimeCalls ⟨some p, home, flags, mode⟩ path).count
        (.closeCall p) = 1
    ∧ (EnvironmentBuilder.open ⟨some p, home, flags, mode⟩ 0).2.1.env_ptr = none
    ∧ (EnvironmentBuilder.open ⟨some p, home, flags, mode⟩ 0).1 = .ok ⟨some p⟩ := by
  refine ⟨?_, by simp [EnvironmentBuilder.open], by simp [EnvironmentBuilder.open]⟩
  match path with
  | none => simp [envBuilderLifetimeCalls, EnvironmentBuilder.dropCalls]
  | some st =>
    by_cases h : st = 0
    · simp [envBuilderLifetimeCalls, EnvironmentBuilder.open, h,
        EnvironmentBuilder.dropCalls, Env.dropCalls, List.count_cons]
    · simp [envBuilderLifetimeCalls, EnvironmentBuilder.open, h,
        EnvironmentBuilder.dropCalls, List.count_cons]

/-- Native database-handle calls issued by the wrapper, plus the release
of the held shared Environment reference when the Db is dropped. -/
inductive DbCall where
  | dbCloseCall (ptr : Nat)
  | envReleaseCall (env : Nat)
deriving DecidableEq, Repr

/-- Db from src/db.rs lines 284-287: the native database handle together
with the optionally held shared (Arc) Environment reference.  Environments
are identified by their native handle; `none` is the standalone case. -/
structure Db where
  env : Option Nat
  db : Nat
deriving DecidableEq, Repr

/-- DatabaseBuilder from src/db.rs lines 159-169 (the transaction field is
kept as a handle id; the collection type is irrelevant to the claims and
folded into flags). -/
structure DatabaseBuilder where
  env : Option Nat
  txn : Option Nat
  file : Option (List Nat)
  name : Option (List Nat)
  flags : Nat
  mode : Int
deriving DecidableEq, Repr

/-- DatabaseBuilder::new from src/db.rs lines 173-183: no environment, no
transaction, no file or name, default flags and mode. -/
def DatabaseBuilder.new : DatabaseBuilder := ⟨none, none, none, none, 0, 0⟩

/-- DatabaseBuilder::environment from src/db.rs lines 186-189: stores a
clone of the caller's shared Environment reference (env.clone() on the
Arc). -/
def DatabaseBuilder.environment (b : DatabaseBuilder) (e : Nat) :
    DatabaseBuilder :=
  { b with env := some e }

/-- DatabaseBuilder::open from src/db.rs lines 231-270, after db_create
succeeded (a create failure panics the process and is not a value of this
function): the engine open either succeeds — the returned Db takes the
builder's Environment reference and the created handle — or fails, in
which case the created native object is closed before the mapped Error is
returned. -/
def DatabaseBuilder.open (b : DatabaseBuilder) (dbPtr : Nat) (st : Int) :
    Except Error Db × List DbCall :=
  if st = 0 then (.ok ⟨b.env, dbPtr⟩, [])
  else (.error (Error.new st), [.dbCloseCall dbPtr])

/-- Drop for Db from src/db.rs lines 448-454: the native database close
runs first, and only then is the held Environment reference released
(Rust drops fields after the Drop body). -/
def Db.dropCalls (d : Db) : List DbCall :=
  [.dbCloseCall d.db]
    ++ (match d.env with | some e => [.envReleaseCall e] | none => [])

/-- Modelled from the spec: Arc shared-ownership semantics (§5, §9) — the
Environment's native close (its destructor) fires exactly when the number
of live references to it reaches zero, and not before. -/
def envCloseFires (liveRefs : Nat) : Bool := liveRefs == 0

/-- C4: a Database opened with a bound Environment holds that shared
reference (and a standalone open holds none); the reference is released
only at the Db's own drop, after its native close; and while at least one
Database still holds its reference the live-reference count is positive,
so the Environment's native close cannot fire. -/
theorem C4_db_keeps_env_alive (b : DatabaseBuilder) (e dbPtr : Nat)
    (dbRefs otherRefs : Nat) (hlive : 1 ≤ dbRefs) :
    ((b.environment e).open dbPtr 0).1 = .ok ⟨some e, dbPtr⟩
    ∧ (DatabaseBuilder.new.open dbPtr 0).1 = .ok ⟨none, dbPtr⟩
    ∧ Db.dropCalls ⟨some e, dbPtr⟩ = [.dbCloseCall dbPtr, .envReleaseCall e]
    ∧ Db.dropCalls ⟨none, dbPtr⟩ = [.dbCloseCall dbPtr]
    ∧ envCloseFires (dbRefs + otherRefs) = false := by
  refine ⟨by simp [DatabaseBuilder.open, DatabaseBuilder.environment],
    by simp [DatabaseBuilder.open, DatabaseBuilder.new], rfl, rfl, ?_⟩
  simp only [envCloseFires, beq_eq_false_iff_ne, ne_eq]
  omega

/-- C4 witness: a builder bound to environment handle 3 opening database
handle 5, with that one Database reference plus one caller reference
live. -/
theorem C4_db_keeps_env_alive_witness :
    ((DatabaseBuilder.new.environment 3).open 5 0).1 = .ok ⟨some 3, 5⟩
    ∧ (DatabaseBuilder.new.open 5 0).1 = .ok ⟨none, 5⟩
    ∧ Db.dropCalls ⟨some 3, 5⟩ = [.dbCloseCall 5, .envReleaseCall 3]
    ∧ Db.dropCalls ⟨none, 5⟩ = [.dbCloseCall 5]
    ∧ envCloseFires (1 + 1) = false :=
  C4_db_keeps_env_alive DatabaseBuilder.new 3 5 1 1 (by norm_num)

/-- Modelled from the spec: the engine's keyed store for one database
(§3, §4.3, §6) — the committed records plus the pending writes of one
open transaction.  Records are an association list in which the most
recent binding shadows earlier ones. -/
structure EngineDb where
  committed : List (List Nat × List Nat)
  pending : List (List Nat × List Nat)
deriving DecidableEq, Repr

/-- Modelled from the spec: association lookup; the first (most recent)
binding wins. -/
def assocGet (m : List (List Nat × List Nat)) (k : List Nat) :
    Option (List Nat) :=
  (m.find? (fun kv => kv.1 == k)).map (fun kv => kv.2)

/-- Modelled from the spec: engine db_put (§6): the pair is recorded —
into the open transaction's pending writes when a transaction handle is
passed, else directly into the committed records — and status 0 is
reported. -/
def engineDbPut (s : EngineDb) (txn : Bool) (k v : List Nat) :
    Int × EngineDb :=
  (0, if txn then { s with pending := (k, v) :: s.pending }
      else { s with committed := (k, v) :: s.committed })

/-- Modelled from the spec: engine db_get (§6): status 0 together with the
engine-allocated value bytes when the key is present (a transactional
read sees the transaction's pending writes first), DB_NOTFOUND when
absent. -/
def engineDbGet (s : EngineDb) (txn : Bool) (k : List Nat) :
    Int × List Nat :=
  match assocGet (if txn then s.pending ++ s.committed else s.committed) k with
  | some v => (0, v)
  | none => (DB_NOTFOUND, [])

/-- Modelled from the spec: engine txn_begin (§6) for one transaction — it
starts with no pending writes. -/
def engineTxnBegin (s : EngineDb) : EngineDb := { s with pending := [] }

/-- Modelled from the spec: engine txn_commit (§6): the transaction's
writes become committed, shadowing older committed records. -/
def engineTxnCommit (s : EngineDb) : EngineDb := ⟨s.pending ++ s.committed, []⟩

/-- Modelled from the spec: engine txn_abort (§6): the transaction's
writes are undone; the committed records are untouched. -/
def engineTxnAbort (s : EngineDb) : EngineDb := ⟨s.committed, []⟩

/-- Db::put composed with the engine store model: the wrapper's status
match applied to the engine's reply, with the updated store. -/
def Db.putOn (s : EngineDb) (txn : Bool) (k v : List Nat) :
    Except Error Unit × EngineDb :=
  let r := engineDbPut s txn k v
  (Db.put r.1, r.2)

/-- Db::get composed with the engine store model. -/
def Db.getOn (s : EngineDb) (txn : Bool) (k : List Nat) :
    Except Error (Option DBT) :=
  let r := engineDbGet s txn k
  Db.get r.1 r.2

/-- C6: for every store and all byte keys and values, put with no
transaction returns Ok(()) and the subsequent get with no transaction
returns Ok(Some buffer) whose bytes equal the stored value
byte-for-byte. -/
theorem C6_put_get_roundtrip (s : EngineDb) (k v : List Nat) :
    (Db.putOn s false k v).1 = .ok ()
    ∧ Db.getOn (Db.putOn s false k v).2 false k = .ok (some (DBT.Ptr v))
    ∧ (DBT.Ptr v).as_slice = v := by
  refine ⟨rfl, ?_, rfl⟩
  simp [Db.getOn, Db.putOn, engineDbGet, engineDbPut, assocGet,
    List.find?_cons_of_pos, Db.get]

/-- C7: for a key with no committed record, a put performed under a
transaction followed by abort leaves the key absent (get returns
Ok(None)); the same put followed by commit leaves the key present with
the written value (get returns Ok(Some v)). -/
theorem C7_txn_abort_absent_commit_present (s : EngineDb) (k v : List Nat)
    (habsent : assocGet s.committed k = none) :
    Db.getOn (engineTxnAbort (Db.putOn (engineTxnBegin s) true k v).2) false k
      = .ok none
    ∧ Db.getOn (engineTxnCommit (Db.putOn (engineTxnBegin s) true k v).2) false k
      = .ok (some (DBT.Ptr v)) := by
  constructor
  · simp [Db.getOn, Db.putOn, engineDbGet, engineDbPut, engineTxnBegin,
      engineTxnAbort, habsent, Db.get, DB_NOTFOUND]
  · simp [Db.getOn, Db.putOn, engineDbGet, engineDbPut, engineTxnBegin,
      engineTxnCommit, assocGet, List.find?_cons_of_pos, Db.get]

/-- C7 witness: on the empty store, key [1] (absent) written with value
[2] under a transaction: absent after abort, present after commit. -/
theorem C7_txn_abort_absent_commit_present_witness :
    assocGet (EngineDb.mk [] []).committed [1] = none
    ∧ (Db.getOn (engineTxnAbort (Db.putOn (engineTxnBegin ⟨[], []⟩) true [1] [2]).2)
          false [1] = .ok none
       ∧ Db.getOn (engineTxnCommit (Db.putOn (engineTxnBegin ⟨[], []⟩) true [1] [2]).2)
          false [1] = .ok (some (DBT.Ptr [2]))) :=
  ⟨rfl, C7_txn_abort_absent_commit_present ⟨[], []⟩ [1] [2] rfl⟩

/-- Events in a Buffer's lifetime: reads of its bytes and the release of
the engine-allocated block. -/
inductive BufEvent where
  | readEvent
  | freeEvent
deriving DecidableEq, Repr

/-- Drop for DBT from src/dbt.rs lines 37-43: the engine-owned (Ptr)
variant frees its engine-allocated block; the borrowed (Owned) variant
performs no release action. -/
def DBT.dropEvents : DBT → List BufEvent
  | .Ptr _ => [.freeEvent]
  | .Owned _ => []

/-- A Buffer's whole lifetime under Rust single ownership: any number of
reads of the live value followed by the one drop.  Drop is the only place
a release action exists, and Rust runs it exactly once, after the last
read — a released Buffer can never be read because no event follows the
drop. -/
def bufferLifetimeEvents (b : DBT) (reads : Nat) : List BufEvent :=
  List.replicate reads .readEvent ++ b.dropEvents

/-- C8: over any Buffer lifetime the engine-owned variant emits exactly
one free, at its own drop and after every read; the borrowed variant
emits no release action at all; and no lifetime contains a second free —
double release is impossible by construction. -/
theorem C8_buffer_freed_exactly_once (b : DBT) (reads : Nat)
    (data s : List Nat) :
    bufferLifetimeEvents (DBT.Ptr data) reads
      = List.replicate reads .readEvent ++ [.freeEvent]
    ∧ bufferLifetimeEvents (DBT.Owned s) reads = List.replicate reads .readEvent
    ∧ (bufferLifetimeEvents b reads).count .freeEvent ≤ 1
    ∧ (DBT.Ptr data).dropEvents.count .freeEvent = 1
    ∧ (DBT.Owned s).dropEvents = [] := by
  refine ⟨rfl, by simp [bufferLifetimeEvents, DBT.dropEvents], ?_, rfl, rfl⟩
  cases b with
  | Owned s' =>
    simp [bufferLifetimeEvents, DBT.dropEvents, List.count_replicate]
  | Ptr d' =>
    simp [bufferLifetimeEvents, DBT.dropEvents, List.count_append,
      List.count_replicate, List.count_singleton]

/-- Modelled from the spec: the Error Mapper categories of §4.5 — the
refinement target, to be compared with the status constants and call-site
behaviour of the source.  Generic carries the raw code; its message, like
every Error message, is resolved lazily through strerror rather than
stored. -/
inductive ErrorCategory where
  | NotFound
  | KeyExists
  | Deadlock
  | LockNotGranted
  | RunRecovery
  | BufferTooSmall
  | Generic (code : Int)
deriving DecidableEq, Repr

/-- Modelled from the spec: the §4.5 mapping from a signed engine status
code to its category, keyed by the status constants of src/error.rs. -/
def specErrorCategory (c : Int) : ErrorCategory :=
  if c = DB_NOTFOUND then .NotFound
  else if c = DB_KEYEXIST then .KeyExists
  else if c = DB_LOCK_DEADLOCK then .Deadlock
  else if c = DB_LOCK_NOTGRANTED then .LockNotGranted
  else if c = DB_RUNRECOVERY then .RunRecovery
  else if c = DB_BUFFER_SMALL then .BufferTooSmall
  else .Generic c

/-- C9: the spec's error categories coincide with the status constants of
src/error.rs; the NotFound category corresponds exactly to the one status
Db::get intercepts into the Option::None path, and no Error that Db::get
surfaces ever carries a NotFound-categorised code; and the message text is
resolved lazily — Error stores only the code, and as_string applies the
engine's strerror on demand. -/
theorem C9_error_mapper_refinement (c st : Int) (d : List Nat) (err : Error)
    (strerror : Int → String) :
    (specErrorCategory c = .NotFound ↔ c = DB_NOTFOUND)
    ∧ specErrorCategory DB_KEYEXIST = .KeyExists
    ∧ specErrorCategory DB_LOCK_DEADLOCK = .Deadlock
    ∧ specErrorCategory DB_LOCK_NOTGRANTED = .LockNotGranted
    ∧ specErrorCategory DB_RUNRECOVERY = .RunRecovery
    ∧ specErrorCategory DB_BUFFER_SMALL = .BufferTooSmall
    ∧ (c ≠ DB_NOTFOUND → c ≠ DB_KEYEXIST → c ≠ DB_LOCK_DEADLOCK →
        c ≠ DB_LOCK_NOTGRANTED → c ≠ DB_RUNRECOVERY → c ≠ DB_BUFFER_SMALL →
        specErrorCategory c = .Generic c)
    ∧ (Db.get st d = .ok none ↔ st = DB_NOTFOUND)
    ∧ (Db.get st d = .error err → specErrorCategory err.errno ≠ .NotFound)
    ∧ Error.new c = ⟨c⟩
    ∧ (Error.new c).as_string strerror = strerror c := by
  have hcat : ∀ x : Int, specErrorCategory x = .NotFound ↔ x = DB_NOTFOUND := by
    intro x
    constructor
    · intro h
      by_contra hne
      simp only [specErrorCategory, if_neg hne] at h
      repeat' split at h
      all_goals simp at h
    · intro h
      simp [specErrorCategory, h]
  refine ⟨hcat c, by norm_num [specErrorCategory, DB_KEYEXIST, DB_NOTFOUND],
    by norm_num [specErrorCategory, DB_LOCK_DEADLOCK, DB_NOTFOUND, DB_KEYEXIST],
    by norm_num [specErrorCategory, DB_LOCK_NOTGRANTED, DB_NOTFOUND, DB_KEYEXIST,
      DB_LOCK_DEADLOCK],
    by norm_num [specErrorCategory, DB_RUNRECOVERY, DB_NOTFOUND, DB_KEYEXIST,
      DB_LOCK_DEADLOCK, DB_LOCK_NOTGRANTED],
    by norm_num [specErrorCategory, DB_BUFFER_SMALL, DB_NOTFOUND, DB_KEYEXIST,
      DB_LOCK_DEADLOCK, DB_LOCK_NOTGRANTED, DB_RUNRECOVERY],
    ?_, ?_, ?_, rfl, rfl⟩
  · intro h1 h2 h3 h4 h5 h6
    simp [specErrorCategory, h1, h2, h3, h4, h5, h6]
  · constructor
    · intro h
      by_cases h0 : st = 0
      · simp [Db.get, h0] at h
      · by_cases hn : st = DB_NOTFOUND
        · exact hn
        · simp [Db.get, h0, hn] at h
    · intro h
      simp [Db.get, h, DB_NOTFOUND]
  · intro h
    by_cases h0 : st = 0
    · simp [Db.get, h0] at h
    · by_cases hn : st = DB_NOTFOUND
      · subst hn
        norm_num [Db.get, DB_NOTFOUND] at h
        exact Except.noConfusion h
      · have herr : err = Error.new st := by
          simp only [Db.get, if_neg h0, if_neg hn] at h
          exact (Except.error.inj h).symm
        subst herr
        intro hq
        exact hn ((hcat st).mp hq)

/-- C9 witness: the category correspondences, the interception equivalence
at statuses -30988 and -30994, the no-NotFound-Error fact at status
-30994, and lazy message resolution, all at concrete inputs. -/
theorem C9_error_mapper_refinement_witness :
    (specErrorCategory DB_NOTFOUND = .NotFound ↔ DB_NOTFOUND = DB_NOTFOUND)
    ∧ specErrorCategory DB_KEYEXIST = .KeyExists
    ∧ (Db.get DB_LOCK_DEADLOCK [] = .error (Error.new DB_LOCK_DEADLOCK) →
        specErrorCategory (Error.new DB_LOCK_DEADLOCK).errno ≠ .NotFound)
    ∧ (Error.new 7).as_string (fun c => toString c) = toString (7 : Int) :=
  ⟨(C9_error_mapper_refinement DB_NOTFOUND 0 [] ⟨0⟩ (fun c => toString c)).1,
   (C9_error_mapper_refinement DB_NOTFOUND 0 [] ⟨0⟩ (fun c => toString c)).2.1,
   (C9_error_mapper_refinement 7 DB_LOCK_DEADLOCK []
      (Error.new DB_LOCK_DEADLOCK) (fun c => toString c)).2.2.2.2.2.2.2.2.1,
   (C9_error_mapper_refinement 7 0 [] ⟨0⟩ (fun c => toString c)).2.2.2.2.2.2.2.2.2.2⟩

end LibDB
